import Mathlib

/-!
Verification of the netlink route module (`sstp-route.c`) of the sstp-client
repository.  The module builds, sends and receives rtnetlink messages over a
fixed 1024-byte session buffer, with a shell fallback backend.

The development shallow-embeds the C code byte-for-byte where the claims need
it: messages are lists of bytes (`List Nat`, each < 256), the netlink macros
(NLMSG_ALIGN, NLMSG_OK, RTA_LENGTH, RTA_SPACE, RTA_OK, RTA_NEXT, RTA_PAYLOAD)
are translated literally, and the receive loop of `sstp_route_recv` is a
step function over a stream of `recv` outcomes.
-/

set_option autoImplicit false

namespace SstpRoute

/-! ### Byte-level primitives

All multi-byte integer fields of netlink messages are little-endian on the
platforms the code targets.  A buffer is a `List Nat`; reading past the end
yields 0, matching the zero-initialised 1024-byte session buffer. -/

/-- Read the byte at index `i`; bytes past the end of the modelled region are 0
(the session buffer is `memset` to zero before use). -/
def byteAt (l : List Nat) (i : Nat) : Nat := l.getD i 0

/-- Decode a little-endian 16-bit value at the head of `l`. -/
def decodeU16 (l : List Nat) : Nat := byteAt l 0 + byteAt l 1 * 256

/-- Decode a little-endian 32-bit value at the head of `l`. -/
def decodeU32 (l : List Nat) : Nat :=
  byteAt l 0 + byteAt l 1 * 256 + byteAt l 2 * 65536 + byteAt l 3 * 16777216

/-- Decode a little-endian two's-complement 32-bit value (the `error` field of
`struct nlmsgerr` is a C `int`). -/
def decodeI32 (l : List Nat) : Int :=
  let n := decodeU32 l
  if n < 2147483648 then (n : Int) else (n : Int) - 4294967296

/-- Little-endian encoding of a 16-bit value. -/
def u16le (n : Nat) : List Nat := [n % 256, n / 256 % 256]

/-- Little-endian encoding of a 32-bit value. -/
def u32le (n : Nat) : List Nat :=
  [n % 256, n / 256 % 256, n / 65536 % 256, n / 16777216 % 256]

/-- `NLMSG_ALIGN` / `RTA_ALIGN`: round up to a multiple of 4
(`(len + 3) & ~3`, written with division on `Nat`). -/
def align4 (n : Nat) : Nat := (n + 3) / 4 * 4

/-! ### Netlink constants (linux/netlink.h, linux/rtnetlink.h, socket.h) -/

def NLMSG_ERROR : Nat := 2
def NLMSG_DONE : Nat := 3
def NLM_F_REQUEST : Nat := 1
def NLM_F_MULTI : Nat := 2
def NLM_F_ACK : Nat := 4
def NLM_F_REPLACE : Nat := 256
def NLM_F_CREATE : Nat := 1024
def RTM_NEWROUTE : Nat := 24
def RTM_DELROUTE : Nat := 25
def RTM_GETROUTE : Nat := 26
def RT_TABLE_MAIN : Nat := 254
def RT_SCOPE_UNIVERSE : Nat := 0
def RT_SCOPE_LINK : Nat := 253
def RTPROT_BOOT : Nat := 3
def RTN_UNICAST : Nat := 1
def RTA_DST : Nat := 1
def RTA_OIF : Nat := 4
def RTA_GATEWAY : Nat := 5
def RTA_PREFSRC : Nat := 7
def AF_INET : Nat := 2
def AF_INET6 : Nat := 10

/-! ### Data model -/

/-- `struct nlmsghdr` (16 bytes on the wire). -/
structure NlMsgHdr where
  nlmsg_len : Nat
  nlmsg_type : Nat
  nlmsg_flags : Nat
  nlmsg_seq : Nat
  nlmsg_pid : Nat
deriving Repr, DecidableEq

/-- `struct rtmsg` (12 bytes on the wire). -/
structure RtMsg where
  rtm_family : Nat
  rtm_dst_len : Nat
  rtm_src_len : Nat
  rtm_tos : Nat
  rtm_table : Nat
  rtm_protocol : Nat
  rtm_scope : Nat
  rtm_type : Nat
  rtm_flags : Nat
deriving Repr, DecidableEq

/-- The all-zero `struct rtmsg`, as left by `memset(ctx->buf, 0, ...)`. -/
def zeroRtm : RtMsg := ⟨0, 0, 0, 0, 0, 0, 0, 0, 0⟩

/-- A request message under construction in the session buffer: the netlink
header, the `rtmsg` body, and the raw bytes of the attribute region that
starts at offset `NLMSG_LENGTH(sizeof(struct rtmsg)) = 28`. -/
structure NlMsg where
  hdr : NlMsgHdr
  rtm : RtMsg
  attrs : List Nat
deriving Repr, DecidableEq

/-- Presence flags of `sstp_route_st` (`route->have.{dst,src,gwy,oif}`). -/
structure RouteHave where
  dst : Bool
  src : Bool
  gwy : Bool
  oif : Bool
deriving Repr, DecidableEq

/-- Modelled from the spec: `sstp_route_st` is declared in `sstp-private.h`,
which is not under `src/`; fields follow spec section 3 (family tag, raw
address bytes for dst/src/gwy, output-interface index `oif`, interface name
`ifname`, address byte-length `rt_blen`, presence flags) plus the `ipcmd`
text field the shell fallback stores its output line in (spec section 4.5). -/
structure Route where
  family : Nat
  rt_blen : Nat
  dst : List Nat
  src : List Nat
  gwy : List Nat
  oif : Nat
  ifname : String
  ipcmd : String
  have_ : RouteHave
deriving Repr, DecidableEq

/-- The all-zero route, as produced by `memset(route, 0, sizeof(sstp_route_st))`. -/
def zeroRoute : Route := ⟨0, 0, [], [], [], 0, "", "", ⟨false, false, false, false⟩⟩

/-- A `struct sockaddr` argument of `sstp_route_get`: the address family plus
the raw address bytes of the `sockaddr_in`/`sockaddr_in6` overlays. -/
structure SockAddr where
  sa_family : Nat
  sin_addr : List Nat
  sin6_addr : List Nat
deriving Repr, DecidableEq

/-! ### Message builder -/

/-- `sstp_route_addattr`: append one rtattr at `NLMSG_TAIL(nlh)`
(offset `NLMSG_ALIGN(nlmsg_len)`), with
`rta_len = RTA_LENGTH(len) = 4 + len`, copy `len` bytes of payload, and grow
`nlmsg_len` to `NLMSG_ALIGN(nlmsg_len) + RTA_SPACE(len)`.  The bytes skipped
by alignment come from the zeroed buffer. -/
def sstp_route_addattr (m : NlMsg) (t : Nat) (len : Nat) (value : List Nat) : NlMsg :=
  let tail := align4 m.hdr.nlmsg_len
  { m with
    attrs := m.attrs ++ List.replicate (tail - (28 + m.attrs.length)) 0 ++
      u16le (4 + len) ++ u16le t ++ value.take len,
    hdr := { m.hdr with nlmsg_len := tail + align4 (4 + len) } }

/-- `sstp_route_newmsg`: build the request for replace/delete.  The header
gets `NLMSG_LENGTH(sizeof(struct rtmsg)) = 28`, command, flags
`NLM_F_REQUEST | NLM_F_ACK | flags`, the incremented sequence number and the
process id; the body gets table/family/scope and, for non-delete commands,
protocol and route type; then one attribute per set presence flag. -/
def sstp_route_newmsg (pid seq : Nat) (route : Route) (cmd flags : Nat) : NlMsg :=
  let m0 : NlMsg :=
    { hdr := { nlmsg_len := 28, nlmsg_type := cmd,
               nlmsg_flags := NLM_F_REQUEST ||| NLM_F_ACK ||| flags,
               nlmsg_seq := seq + 1, nlmsg_pid := pid }
      rtm := { zeroRtm with
               rtm_table := RT_TABLE_MAIN,
               rtm_family := route.family,
               rtm_scope := if route.have_.gwy then RT_SCOPE_UNIVERSE else RT_SCOPE_LINK,
               rtm_protocol := if cmd ≠ RTM_DELROUTE then RTPROT_BOOT else 0,
               rtm_type := if cmd ≠ RTM_DELROUTE then RTN_UNICAST else 0 }
      attrs := [] }
  let m1 := if route.have_.dst then
      let m := sstp_route_addattr m0 RTA_DST route.rt_blen route.dst
      { m with rtm := { m.rtm with rtm_dst_len := route.rt_blen <<< 3 } }
    else m0
  let m2 := if route.have_.src then
      let m := sstp_route_addattr m1 RTA_PREFSRC route.rt_blen route.src
      { m with rtm := { m.rtm with rtm_src_len := route.rt_blen <<< 3 } }
    else m1
  let m3 := if route.have_.gwy then
      sstp_route_addattr m2 RTA_GATEWAY route.rt_blen route.gwy
    else m2
  if route.have_.oif then
    sstp_route_addattr m3 RTA_OIF 4 (u32le route.oif)
  else m3

/-- The request-building half of `sstp_route_get` (lines 304-338): header with
`RTM_GETROUTE` and `NLM_F_REQUEST` only, body with the destination family and
table, then per family one destination attribute and a full-length prefix
(32 bits for IPv4, 128 for IPv6); other families add nothing. -/
def sstp_route_get_req (pid seq : Nat) (dst : SockAddr) : NlMsg :=
  let m0 : NlMsg :=
    { hdr := { nlmsg_len := 28, nlmsg_type := RTM_GETROUTE,
               nlmsg_flags := NLM_F_REQUEST,
               nlmsg_seq := seq + 1, nlmsg_pid := pid }
      rtm := { zeroRtm with rtm_family := dst.sa_family, rtm_table := RT_TABLE_MAIN }
      attrs := [] }
  if dst.sa_family = AF_INET then
    let m := sstp_route_addattr m0 RTA_DST 4 dst.sin_addr
    { m with rtm := { m.rtm with rtm_dst_len := 32 } }
  else if dst.sa_family = AF_INET6 then
    let m := sstp_route_addattr m0 RTA_DST 16 dst.sin6_addr
    { m with rtm := { m.rtm with rtm_dst_len := 128 } }
  else m0

/-- Serialize `struct nlmsghdr`. -/
def hdrToBytes (h : NlMsgHdr) : List Nat :=
  u32le h.nlmsg_len ++ u16le h.nlmsg_type ++ u16le h.nlmsg_flags ++
  u32le h.nlmsg_seq ++ u32le h.nlmsg_pid

/-- Serialize `struct rtmsg`. -/
def rtmToBytes (r : RtMsg) : List Nat :=
  [r.rtm_family % 256, r.rtm_dst_len % 256, r.rtm_src_len % 256, r.rtm_tos % 256,
   r.rtm_table % 256, r.rtm_protocol % 256, r.rtm_scope % 256, r.rtm_type % 256] ++
  u32le r.rtm_flags

/-- Serialize a whole request message. -/
def msgToBytes (m : NlMsg) : List Nat := hdrToBytes m.hdr ++ rtmToBytes m.rtm ++ m.attrs

/-! ### Attribute walk

The decoder loop of `sstp_route_get` (lines 369-399) iterates
`for ( ; RTA_OK(rta,rtl); rta = RTA_NEXT(rta,rtl))` over the attribute
region.  `RTA_OK(rta,len)` is
`len >= 4 && rta->rta_len >= 4 && rta->rta_len <= len`; `RTA_NEXT` advances
by `RTA_ALIGN(rta->rta_len)`; `RTA_PAYLOAD` is `rta_len - 4`. -/

/-- Walk the attribute region, returning each attribute's type and payload
bytes, exactly as the `RTA_OK`/`RTA_NEXT` loop visits them. -/
def parseAttrs (bytes : List Nat) (rtl : Nat) : List (Nat × List Nat) :=
  if _h : 4 ≤ rtl ∧ 4 ≤ decodeU16 bytes ∧ decodeU16 bytes ≤ rtl then
    (decodeU16 (bytes.drop 2), (bytes.drop 4).take (decodeU16 bytes - 4)) ::
      parseAttrs (bytes.drop (align4 (decodeU16 bytes))) (rtl - align4 (decodeU16 bytes))
  else []
termination_by rtl
decreasing_by
  simp only [align4]
  omega

/-! ### Session transport: the receive loop of `sstp_route_recv`

`sstp_route_recv` (lines 72-135) reads into `ctx->buf + ctx->len` inside a
do-while loop.  Each iteration is driven by one outcome of `recv`, modelled
by a `ReadEvent`.  A C `continue` in a do-while jumps to the controlling
expression `nlmsg_len > ctx->len`, read from the header at the start of the
buffer; the model reproduces this exactly. -/

/-- One outcome of the `recv` call: a transient failure
(`errno == EAGAIN || errno == EINTR`), any other failure, or data
(an empty list models an orderly zero-length read). -/
inductive ReadEvent where
  | retry : ReadEvent
  | fail : ReadEvent
  | data : List Nat → ReadEvent
deriving Repr, DecidableEq

/-- Error outcomes of `sstp_route_recv`.  In C all three are `return -1`; they
are distinguished by side channel: plain I/O failure, the malformed-message
branch (`!NLMSG_OK`), and the kernel error frame, which stores
`errno = -err->error`. -/
inductive RecvErr where
  | ioError : RecvErr
  | protoError : RecvErr
  | kernelError : Int → RecvErr
deriving Repr, DecidableEq

/-- `nlmsg_len` of the message at the start of the buffer. -/
def nlLen (buf : List Nat) : Nat := decodeU32 buf

/-- `nlmsg_type` of the message at the start of the buffer. -/
def nlType (buf : List Nat) : Nat := decodeU16 (buf.drop 4)

/-- `nlmsg_flags` of the message at the start of the buffer. -/
def nlFlags (buf : List Nat) : Nat := decodeU16 (buf.drop 6)

/-- `nlmsg_seq` of the message at the start of the buffer. -/
def nlSeq (buf : List Nat) : Nat := decodeU32 (buf.drop 8)

/-- `nlmsg_pid` of the message at the start of the buffer. -/
def nlPid (buf : List Nat) : Nat := decodeU32 (buf.drop 12)

/-- The `error` field of the `struct nlmsgerr` at `NLMSG_DATA(nlh)`
(offset 16). -/
def nlErrCode (buf : List Nat) : Int := decodeI32 (buf.drop 16)

/-- `NLMSG_OK(nlh, len)`:
`len >= sizeof(nlmsghdr) && nlmsg_len >= sizeof(nlmsghdr) && nlmsg_len <= len`. -/
def nlmsgOk (buf : List Nat) (len : Nat) : Prop :=
  16 ≤ len ∧ 16 ≤ nlLen buf ∧ nlLen buf ≤ len

instance (buf : List Nat) (len : Nat) : Decidable (nlmsgOk buf len) := by
  unfold nlmsgOk
  infer_instance

/-- The body of `sstp_route_recv`'s do-while loop, one `ReadEvent` per
iteration, carrying `(ctx->buf, ctx->len)` through.  `none` means the loop is
still blocked in `recv` when the event stream runs out; `some (.ok (l, buf))`
is `return ctx->len` with the final buffer contents. -/
def recvLoopAux (pid seq : Nat) :
    List ReadEvent → List Nat → Nat → Option (Except RecvErr (Nat × List Nat))
  | [], _, _ => none
  | e :: rest, buf, ctxLen =>
    match e with
    | .fail => some (.error .ioError)
    | .retry =>
      -- continue → while (nlh->nlmsg_len > ctx->len)
      if ctxLen < nlLen buf then recvLoopAux pid seq rest buf ctxLen
      else some (.ok (ctxLen, buf))
    | .data bytes =>
      let len := bytes.length
      if len = 0 then some (.error .ioError)
      else
        let buf2 := buf.take ctxLen ++ bytes ++ buf.drop (ctxLen + len)
        if ¬ nlmsgOk buf2 len then some (.error .protoError)
        else if nlType buf2 = NLMSG_ERROR ∧ nlErrCode buf2 ≠ 0 then
          some (.error (.kernelError (- nlErrCode buf2)))
        else if nlSeq buf2 ≠ seq % 4294967296 then
          if ctxLen < nlLen buf2 then recvLoopAux pid seq rest buf2 ctxLen
          else some (.ok (ctxLen, buf2))
        else if nlPid buf2 ≠ pid % 4294967296 then
          if ctxLen < nlLen buf2 then recvLoopAux pid seq rest buf2 ctxLen
          else some (.ok (ctxLen, buf2))
        else
          -- ctx->len = len, then the two terminal checks, then the condition
          if nlType buf2 = NLMSG_DONE then some (.ok (len, buf2))
          else if nlFlags buf2 &&& NLM_F_MULTI = 0 then some (.ok (len, buf2))
          else if len < nlLen buf2 then recvLoopAux pid seq rest buf2 len
          else some (.ok (len, buf2))

/-- `sstp_route_recv`: zero `ctx->len`, then run the do-while loop. -/
def sstp_route_recv (pid seq : Nat) (buf : List Nat) (events : List ReadEvent) :
    Option (Except RecvErr (Nat × List Nat)) :=
  recvLoopAux pid seq events buf 0

/-- `sstp_route_talk`: send the request, then receive.  A datagram send
either transmits the whole message or fails with -1; `sendOk` models
which happened. -/
def sstp_route_talk (sendOk : Bool) (pid seq : Nat) (buf : List Nat)
    (events : List ReadEvent) : Option (Except RecvErr (Nat × List Nat)) :=
  if sendOk then sstp_route_recv pid seq buf events
  else some (.error .ioError)

/-! ### Response decoder (second half of `sstp_route_get`, lines 347-402) -/

/-- Error outcomes of the protocol-backend `sstp_route_get`.  In C every
failure is `return -1`; the variants name which branch failed, following the
spec's error taxonomy. -/
inductive GetErr where
  | ioError : GetErr
  | protoError : GetErr
  | kernelError : Int → GetErr
  | unsupportedFamily : GetErr
deriving Repr, DecidableEq

/-- Lift a receive-loop error into a `sstp_route_get` error. -/
def liftRecvErr : RecvErr → GetErr
  | .ioError => .ioError
  | .protoError => .protoError
  | .kernelError c => .kernelError c

/-- One step of the attribute switch in `sstp_route_get`'s decoding loop.
`resolver` models `if_indextoname`: on failure it returns `none` and the
interface name is left as the zeroed (empty) string. -/
def applyAttr (resolver : Nat → Option String) (r : Route) (t : Nat) (p : List Nat) :
    Route :=
  if t = RTA_OIF then
    { r with ifname := match resolver (decodeU32 p) with
               | some s => s
               | none => r.ifname
             oif := decodeU32 p
             have_ := { r.have_ with oif := true } }
  else if t = RTA_GATEWAY then
    { r with gwy := p, have_ := { r.have_ with gwy := true } }
  else if t = RTA_PREFSRC then
    { r with src := p, have_ := { r.have_ with src := true } }
  else if t = RTA_DST then
    { r with dst := p, have_ := { r.have_ with dst := true } }
  else r

/-- Decode the response in the session buffer after `sstp_route_talk`
returned `len`: check `NLMSG_OK`, reject families other than IPv4/IPv6,
zero the output route, set family and `rt_blen`, then fold the attribute
walk (`RTM_RTA` is offset 28, `RTM_PAYLOAD` is `nlmsg_len - 28`). -/
def sstp_route_get_decode (resolver : Nat → Option String) (buf : List Nat)
    (len : Nat) : Except GetErr Route :=
  if ¬ nlmsgOk buf len then .error .protoError
  else
    let fam := byteAt buf 16
    if fam ≠ AF_INET ∧ fam ≠ AF_INET6 then .error .unsupportedFamily
    else
      let r0 := { zeroRoute with
                  family := fam,
                  rt_blen := if fam = AF_INET6 then 16 else 4 }
      .ok ((parseAttrs (buf.drop 28) (nlLen buf - 28)).foldl
            (fun r a => applyAttr resolver r a.1 a.2) r0)

/-- The 1024-byte session buffer holding a freshly built request: the
serialized message followed by the zero bytes the `memset` left. -/
def sessionBuf (m : NlMsg) : List Nat :=
  msgToBytes m ++ List.replicate (1024 - (msgToBytes m).length) 0

/-- The whole protocol-backend `sstp_route_get`: build the request into the
zeroed 1024-byte buffer, exchange it, and decode the response.  The result
pairs the C return value with the caller's route structure, which the code
first writes (zeroing it) only after the family check has passed. -/
def sstp_route_get_proto (pid : Nat) (resolver : Nat → Option String) (seq : Nat)
    (dst : SockAddr) (routeIn : Route) (sendOk : Bool) (events : List ReadEvent) :
    Option (Except GetErr Unit × Route) :=
  let buf := sessionBuf (sstp_route_get_req pid seq dst)
  match sstp_route_talk sendOk pid (seq + 1) buf events with
  | none => none
  | some (.error e) => some (.error (liftRecvErr e), routeIn)
  | some (.ok (len, fbuf)) =>
    match sstp_route_get_decode resolver fbuf len with
    | .error e => some (.error e, routeIn)
    | .ok r => some (.ok (), r)

/-! ### Context lifecycle (`sstp_route_init` / `sstp_route_done`)

A small resource world tracks what the claims about `init`/`done` need:
whether the context allocation is live, the stored `ctx->sock` value, whether
the socket descriptor is open, how many `close` calls were made on it, and
whether a `free` ever hit memory that was not allocated (double free). -/

structure RtWorld where
  ctxAllocated : Bool
  ctxSock : Int
  fdOpen : Bool
  closeCalls : Nat
  doubleFree : Bool
deriving Repr, DecidableEq

/-- The world before `sstp_route_init`. -/
def initialWorld : RtWorld :=
  { ctxAllocated := false, ctxSock := 0, fdOpen := false,
    closeCalls := 0, doubleFree := false }

/-- `sstp_route_init` (netlink backend): `calloc` the context, open the
netlink socket, on socket failure close-and-free and return -1.  `allocOk`
models `calloc` success, `socketRet` the `socket()` return value (a
descriptor, or -1 on failure).  Returns whether a non-null handle was stored
in `*ctx`. -/
def sstp_route_init (allocOk : Bool) (socketRet : Int) (w : RtWorld) :
    Bool × RtWorld :=
  if ¬ allocOk then (false, w)
  else
    let w1 := { w with
                ctxAllocated := true
                ctxSock := socketRet
                fdOpen := decide (0 ≤ socketRet) }
    if socketRet < 0 then
      -- goto done: r is non-null; `if (r->sock) close(r->sock)` closes the
      -- invalid descriptor -1 (no open descriptor is affected); free(r)
      (false, { w1 with ctxAllocated := false })
    else (true, w1)

/-- `sstp_route_done` (netlink backend): null check, close the socket only if
`ctx->sock > 0` and zero the field, then `free(ctx)` unconditionally.
`handleNonNull` is whether the caller passes a non-null context pointer. -/
def sstp_route_done (handleNonNull : Bool) (w : RtWorld) : RtWorld :=
  if ¬ handleNonNull then w
  else
    let w1 := if 0 < w.ctxSock then
        { w with fdOpen := false, closeCalls := w.closeCalls + 1, ctxSock := 0 }
      else w
    { w1 with
      ctxAllocated := false
      doubleFree := w1.doubleFree || !w1.ctxAllocated }

/-! ### Shell fallback backend (compiled when HAVE_NETLINK is absent,
lines 466-528) -/

/-- Fallback `sstp_route_replace`: format `ip route replace ...`, `popen` it,
return -1 if the child cannot be spawned, otherwise `pclose` and fall off the
end of the function — there is no `return` statement on the success path, so
the returned `int` is unspecified (`none`). -/
def sstp_route_replace_sh (spawnOk : Bool) : Option Int :=
  if ¬ spawnOk then some (-1) else none

/-- Fallback `sstp_route_delete`: identical shape to the fallback replace,
including the missing `return` on the success path. -/
def sstp_route_delete_sh (spawnOk : Bool) : Option Int :=
  if ¬ spawnOk then some (-1) else none

/-- Fallback `sstp_route_get`: convert the destination to text (`ipOk` models
`sstp_ipaddr` success), run `ip route get`, read the first output line with
`fgets` (`firstLine`), store it verbatim in `route->ipcmd`.  Every path has a
defined return value. -/
def sstp_route_get_sh (ipOk spawnOk : Bool) (firstLine : Option String)
    (route : Route) : Int × Route :=
  if ¬ ipOk then (-1, route)
  else if ¬ spawnOk then (-1, route)
  else
    match firstLine with
    | none => (-1, route)
    | some s => (0, { route with ipcmd := s })

/-! ### Specification-side helper definitions

These wire-level views are used to state the claims: the encoding of a single
attribute, of an attribute list, the attribute list the builder is expected to
append, and the buffer contents after a read at offset 0. -/

/-- One encoded attribute: `rta_len = 4 + payload`, `rta_type`, payload. -/
def encAttr (t : Nat) (p : List Nat) : List Nat := u16le (4 + p.length) ++ u16le t ++ p

/-- Concatenated encoding of an attribute list. -/
def encAttrs (l : List (Nat × List Nat)) : List Nat :=
  (l.map (fun a => encAttr a.1 a.2)).flatten

/-- Total unpadded rta length of an attribute list. -/
def sumLens (l : List (Nat × List Nat)) : Nat := (l.map (fun a => 4 + a.2.length)).sum

/-- Total `RTA_SPACE` (alignment-padded) size of an attribute list. -/
def sumSpaces (l : List (Nat × List Nat)) : Nat :=
  (l.map (fun a => align4 (4 + a.2.length))).sum

/-- The attributes `sstp_route_newmsg` appends, in source order, one per set
presence flag (the output-interface payload is the 4 little-endian bytes of
the index). -/
def presentAttrs (route : Route) : List (Nat × List Nat) :=
  (if route.have_.dst then [(RTA_DST, route.dst)] else []) ++
  (if route.have_.src then [(RTA_PREFSRC, route.src)] else []) ++
  (if route.have_.gwy then [(RTA_GATEWAY, route.gwy)] else []) ++
  (if route.have_.oif then [(RTA_OIF, u32le route.oif)] else [])

/-- Buffer contents after a read of `bytes` lands at offset 0 of `buf`
(`ctx->len = 0`, the only offset reads ever happen at before the loop exits). -/
def readBuf (buf bytes : List Nat) : List Nat := bytes ++ buf.drop bytes.length

/-- A synthetic well-formed response message: header with declared length
`28 + sumLens attrs`, an `rtmsg` body carrying `fam`, and the encoded
attribute region. -/
def mkResponse (fam seqv pidv : Nat) (attrs : List (Nat × List Nat)) : List Nat :=
  hdrToBytes { nlmsg_len := 28 + sumLens attrs, nlmsg_type := RTM_NEWROUTE,
               nlmsg_flags := 0, nlmsg_seq := seqv, nlmsg_pid := pidv } ++
  rtmToBytes { zeroRtm with rtm_family := fam } ++ encAttrs attrs

/-! ### Concrete test vectors for witnesses and counterexamples -/

/-- A sample valid IPv4 route with all four attributes present. -/
def sampleRoute : Route :=
  { family := 2, rt_blen := 4, dst := [10, 0, 0, 1], src := [192, 168, 1, 2],
    gwy := [10, 0, 0, 254], oif := 7, ifname := "", ipcmd := "",
    have_ := ⟨true, true, true, true⟩ }

/-- A route with a recognisable interface name, to observe that error paths
leave the caller's structure untouched. -/
def keepRoute : Route := { zeroRoute with ifname := "keep" }

/-- A 32-byte zeroed stand-in for the request left in the session buffer. -/
def zeroBuf : List Nat := List.replicate 32 0

/-- A 20-byte matching message: `nlmsg_len` 20, type 24, no flags,
seq 1, pid 42, 4 payload bytes. -/
def msgMatch : List Nat := u32le 20 ++ u16le 24 ++ u16le 0 ++ u32le 1 ++ u32le 42 ++ [9, 9, 9, 9]

/-- A 20-byte message whose sequence number (77) matches nothing we send. -/
def msgWrongSeq : List Nat := u32le 20 ++ u16le 24 ++ u16le 0 ++ u32le 77 ++ u32le 42 ++ [1, 2, 3, 4]

/-- A kernel error frame (`NLMSG_ERROR`, embedded code -17) whose sequence
number 77 and pid 999 match nothing we send. -/
def errFrameWrongSeq : List Nat :=
  u32le 36 ++ u16le 2 ++ u16le 0 ++ u32le 77 ++ u32le 999 ++
  u32le (4294967296 - 17) ++ List.replicate 16 0

/-- A kernel error frame with embedded code 0 (a netlink ACK), matching
seq 1 / pid 42. -/
def ackFrame : List Nat :=
  u32le 36 ++ u16le 2 ++ u16le 0 ++ u32le 1 ++ u32le 42 ++
  u32le 0 ++ List.replicate 16 0

/-- First part of a multi-part response: `NLM_F_MULTI` set, type 24,
matching seq 1 / pid 42, complete in one 20-byte read. -/
def multiPart1 : List Nat := u32le 20 ++ u16le 24 ++ u16le 2 ++ u32le 1 ++ u32le 42 ++ [5, 6, 7, 8]

/-- The terminal `NLMSG_DONE` message of that multi-part response. -/
def multiDone : List Nat := u32le 16 ++ u16le 3 ++ u16le 2 ++ u32le 1 ++ u32le 42

/-- A sample IPv4 destination (4.4.2.2, as in the module's own test main). -/
def dstV4 : SockAddr := ⟨2, [4, 4, 2, 2], []⟩

/-- A sample IPv6 destination. -/
def dstV6 : SockAddr := ⟨10, [], List.replicate 16 1⟩

/-! ### Helper lemmas: the attribute codec -/

theorem decodeU16_u16le (n : Nat) (rest : List Nat) (h : n < 65536) :
    decodeU16 (u16le n ++ rest) = n := by
  simp [decodeU16, u16le, byteAt]
  omega

theorem parseAttrs_of_lt (bytes : List Nat) (rtl : Nat) (h : rtl < 4) :
    parseAttrs bytes rtl = [] := by
  rw [parseAttrs, dif_neg]
  rintro ⟨h1, -⟩
  omega

theorem encAttr_length (t : Nat) (p : List Nat) : (encAttr t p).length = 4 + p.length := by
  simp [encAttr, u16le]
  omega

/-- The `RTA_OK`/`RTA_NEXT` walk consumes a well-formed attribute at the
front of the region and recurses on the remainder. -/
theorem parseAttrs_cons (t : Nat) (p rest : List Nat) (r : Nat)
    (ht : t < 65536) (hp4 : p.length % 4 = 0) (hpb : 4 + p.length < 65536) :
    parseAttrs (encAttr t p ++ rest) (4 + p.length + r) = (t, p) :: parseAttrs rest r := by
  have hdec : decodeU16 (encAttr t p ++ rest) = 4 + p.length := by
    simp only [encAttr, List.append_assoc]
    exact decodeU16_u16le _ _ hpb
  have htype : decodeU16 ((encAttr t p ++ rest).drop 2) = t := by
    have hdr : (encAttr t p ++ rest).drop 2 = u16le t ++ (p ++ rest) := by
      simp [encAttr, u16le]
    rw [hdr]
    exact decodeU16_u16le _ _ ht
  have hdrop4 : (encAttr t p ++ rest).drop 4 = p ++ rest := by
    simp [encAttr, u16le]
  have halign : align4 (4 + p.length) = 4 + p.length := by
    simp only [align4]
    omega
  rw [parseAttrs]
  simp only [hdec, htype]
  rw [dif_pos (by omega)]
  rw [halign, hdrop4, List.drop_left' (encAttr_length t p)]
  congr 1
  · congr 1
    have h4 : 4 + p.length - 4 = p.length := by omega
    rw [h4]
    exact List.take_left p rest
  · congr 1
    omega

/-- Round trip of the attribute codec: parsing an encoded attribute list of
4-aligned, bounded attributes returns exactly that list. -/
theorem parseAttrs_encAttrs (l : List (Nat × List Nat))
    (hw : ∀ a ∈ l, a.1 < 65536 ∧ a.2.length % 4 = 0 ∧ 4 + a.2.length < 65536) :
    parseAttrs (encAttrs l) (sumLens l) = l := by
  induction l with
  | nil => exact parseAttrs_of_lt _ _ (by simp [sumLens, encAttrs])
  | cons a l ih =>
    obtain ⟨ht, hp4, hpb⟩ := hw a (List.mem_cons_self a l)
    have henc : encAttrs (a :: l) = encAttr a.1 a.2 ++ encAttrs l := by
      simp [encAttrs]
    have hsum : sumLens (a :: l) = 4 + a.2.length + sumLens l := by
      simp [sumLens]
    rw [henc, hsum, parseAttrs_cons a.1 a.2 _ _ ht hp4 hpb,
        ih (fun b hb => hw b (List.mem_cons_of_mem a hb))]

/-- For 4-aligned payloads, `RTA_SPACE` adds no padding, so the padded and
unpadded totals agree. -/
theorem sumSpaces_eq_sumLens (l : List (Nat × List Nat))
    (hw : ∀ a ∈ l, a.2.length % 4 = 0) :
    sumSpaces l = sumLens l := by
  induction l with
  | nil => simp [sumSpaces, sumLens]
  | cons a l ih =>
    have ha := hw a (List.mem_cons_self a l)
    have halign : align4 (4 + a.2.length) = 4 + a.2.length := by
      simp only [align4]
      omega
    simp only [sumSpaces, sumLens, List.map_cons, List.sum_cons] at *
    rw [halign, ih (fun b hb => hw b (List.mem_cons_of_mem a hb))]

/-- The attributes of a valid route are well-formed: recognised types below
2^16, 4-aligned payloads of the declared byte length. -/
theorem presentAttrs_wf (route : Route)
    (hb : route.rt_blen = 4 ∨ route.rt_blen = 16)
    (hd : route.dst.length = route.rt_blen) (hs : route.src.length = route.rt_blen)
    (hg : route.gwy.length = route.rt_blen) :
    ∀ a ∈ presentAttrs route,
      a.1 < 65536 ∧ a.2.length % 4 = 0 ∧ 4 + a.2.length < 65536 := by
  intro a ha
  have hone : ∀ {b : Bool} {x : Nat × List Nat},
      a ∈ (if b then [x] else ([] : List (Nat × List Nat))) → a = x := by
    intro b x h
    cases b
    · simp at h
    · simpa using h
  simp only [presentAttrs, List.mem_append] at ha
  rcases ha with ((ha | ha) | ha) | ha <;> rw [hone ha] <;>
    simp [RTA_DST, RTA_PREFSRC, RTA_GATEWAY, RTA_OIF, u32le] <;> omega

/-- Characterisation of the builder's output: the attribute region is the
concatenated encoding of the present attributes, and the declared length is
28 plus their total size. -/
theorem sstp_route_newmsg_spec (pid seq : Nat) (route : Route) (cmd flags : Nat)
    (hb : route.rt_blen = 4 ∨ route.rt_blen = 16)
    (hd : route.dst.length = route.rt_blen) (hs : route.src.length = route.rt_blen)
    (hg : route.gwy.length = route.rt_blen) :
    (sstp_route_newmsg pid seq route cmd flags).attrs = encAttrs (presentAttrs route) ∧
    (sstp_route_newmsg pid seq route cmd flags).hdr.nlmsg_len
      = 28 + sumLens (presentAttrs route) := by
  rcases hb with hb | hb <;> rw [hb] at hd hs hg <;>
  cases h1 : route.have_.dst <;> cases h2 : route.have_.src <;>
  cases h3 : route.have_.gwy <;> cases h4 : route.have_.oif <;>
  constructor <;>
  simp [sstp_route_newmsg, sstp_route_addattr, presentAttrs, encAttrs, encAttr,
    sumLens, align4, h1, h2, h3, h4, hb, hd, hs, hg, List.take_of_length_le, u16le, u32le,
    RTA_DST, RTA_PREFSRC, RTA_GATEWAY, RTA_OIF]

/-- A one-attribute region parses to that one attribute. -/
theorem parseAttrs_single (t : Nat) (p : List Nat)
    (ht : t < 65536) (hp4 : p.length % 4 = 0) (hpb : 4 + p.length < 65536) :
    parseAttrs (encAttr t p) (4 + p.length) = [(t, p)] := by
  have h := parseAttrs_cons t p [] 0 ht hp4 hpb
  rw [List.append_nil] at h
  rw [parseAttrs_of_lt [] 0 (by omega)] at h
  simpa using h

/-! ### Claim theorems -/

/-- C4: for every valid Route input, the built message's declared total
length equals header size (16) plus body size (12) plus the sum of the
alignment-padded sizes of the appended attributes, and re-parsing the
attribute region of the message with the `RTA_OK`/`RTA_NEXT` walk yields back
exactly the attributes whose presence flags were set, with their original
payload bytes (each attribute's declared length is its 4-byte header plus the
payload length, which is what lets the parse recover the payloads intact). -/
theorem claim_C4 (pid seq : Nat) (route : Route) (cmd flags : Nat)
    (hb : route.rt_blen = 4 ∨ route.rt_blen = 16)
    (hd : route.dst.length = route.rt_blen) (hs : route.src.length = route.rt_blen)
    (hg : route.gwy.length = route.rt_blen) :
    (sstp_route_newmsg pid seq route cmd flags).hdr.nlmsg_len
      = 16 + 12 + sumSpaces (presentAttrs route) ∧
    parseAttrs (sstp_route_newmsg pid seq route cmd flags).attrs
        ((sstp_route_newmsg pid seq route cmd flags).hdr.nlmsg_len - 28)
      = presentAttrs route := by
  obtain ⟨hA, hL⟩ := sstp_route_newmsg_spec pid seq route cmd flags hb hd hs hg
  have hw := presentAttrs_wf route hb hd hs hg
  have hss := sumSpaces_eq_sumLens (presentAttrs route) (fun a ha => (hw a ha).2.1)
  constructor
  · rw [hL, hss]
  · rw [hA, hL]
    have h28 : 28 + sumLens (presentAttrs route) - 28 = sumLens (presentAttrs route) := by
      omega
    rw [h28]
    exact parseAttrs_encAttrs _ hw

theorem claim_C4_witness :
    (sampleRoute.rt_blen = 4 ∨ sampleRoute.rt_blen = 16) ∧
    sampleRoute.dst.length = sampleRoute.rt_blen ∧
    sampleRoute.src.length = sampleRoute.rt_blen ∧
    sampleRoute.gwy.length = sampleRoute.rt_blen ∧
    ((sstp_route_newmsg 42 0 sampleRoute RTM_NEWROUTE 0).hdr.nlmsg_len
        = 16 + 12 + sumSpaces (presentAttrs sampleRoute) ∧
      parseAttrs (sstp_route_newmsg 42 0 sampleRoute RTM_NEWROUTE 0).attrs
          ((sstp_route_newmsg 42 0 sampleRoute RTM_NEWROUTE 0).hdr.nlmsg_len - 28)
        = presentAttrs sampleRoute) :=
  ⟨by decide, by decide, by decide, by decide,
   claim_C4 42 0 sampleRoute RTM_NEWROUTE 0 (by decide) (by decide) (by decide) (by decide)⟩

/-- C5: for every route and command, the built body's scope is
`RT_SCOPE_UNIVERSE` exactly when the gateway presence flag is set (else
`RT_SCOPE_LINK`), and the protocol/route-type fields are
`RTPROT_BOOT`/`RTN_UNICAST` exactly when the command is not `RTM_DELROUTE`
(for delete they stay zero from the buffer memset). -/
theorem claim_C5 (pid seq : Nat) (route : Route) (cmd flags : Nat) :
    (sstp_route_newmsg pid seq route cmd flags).rtm.rtm_scope
      = (if route.have_.gwy then RT_SCOPE_UNIVERSE else RT_SCOPE_LINK) ∧
    (sstp_route_newmsg pid seq route cmd flags).rtm.rtm_protocol
      = (if cmd ≠ RTM_DELROUTE then RTPROT_BOOT else 0) ∧
    (sstp_route_newmsg pid seq route cmd flags).rtm.rtm_type
      = (if cmd ≠ RTM_DELROUTE then RTN_UNICAST else 0) := by
  cases h1 : route.have_.dst <;> cases h2 : route.have_.src <;>
  cases h3 : route.have_.gwy <;> cases h4 : route.have_.oif <;>
  simp [sstp_route_newmsg, sstp_route_addattr, h1, h2, h3, h4]

/-- C6: the GET request carries only the destination: the body holds the
destination's family and a full-length prefix (32 bits for IPv4, 128 for
IPv6), and the attribute region parses to exactly one attribute, the
destination address. -/
theorem claim_C6 (pid seq : Nat) (dst : SockAddr) :
    (dst.sa_family = AF_INET → dst.sin_addr.length = 4 →
      (sstp_route_get_req pid seq dst).rtm.rtm_family = AF_INET ∧
      (sstp_route_get_req pid seq dst).rtm.rtm_dst_len = 32 ∧
      parseAttrs (sstp_route_get_req pid seq dst).attrs
          ((sstp_route_get_req pid seq dst).hdr.nlmsg_len - 28)
        = [(RTA_DST, dst.sin_addr)]) ∧
    (dst.sa_family = AF_INET6 → dst.sin6_addr.length = 16 →
      (sstp_route_get_req pid seq dst).rtm.rtm_family = AF_INET6 ∧
      (sstp_route_get_req pid seq dst).rtm.rtm_dst_len = 128 ∧
      parseAttrs (sstp_route_get_req pid seq dst).attrs
          ((sstp_route_get_req pid seq dst).hdr.nlmsg_len - 28)
        = [(RTA_DST, dst.sin6_addr)]) := by
  constructor
  · intro hf hlen
    have hattrs : (sstp_route_get_req pid seq dst).attrs = encAttr RTA_DST dst.sin_addr := by
      simp [sstp_route_get_req, hf, AF_INET, AF_INET6, sstp_route_addattr, align4,
        encAttr, u16le, hlen, List.take_of_length_le, RTA_DST]
    have hlen36 : (sstp_route_get_req pid seq dst).hdr.nlmsg_len = 36 := by
      simp [sstp_route_get_req, hf, AF_INET, AF_INET6, sstp_route_addattr, align4]
    refine ⟨?_, ?_, ?_⟩
    · simp [sstp_route_get_req, hf, AF_INET, AF_INET6, sstp_route_addattr]
    · simp [sstp_route_get_req, hf, AF_INET, AF_INET6, sstp_route_addattr]
    · rw [hattrs, hlen36]
      have h8 : (36 : Nat) - 28 = 4 + dst.sin_addr.length := by omega
      rw [h8]
      exact parseAttrs_single RTA_DST dst.sin_addr (by norm_num [RTA_DST]) (by omega)
        (by omega)
  · intro hf hlen
    have hattrs : (sstp_route_get_req pid seq dst).attrs = encAttr RTA_DST dst.sin6_addr := by
      simp [sstp_route_get_req, hf, AF_INET, AF_INET6, sstp_route_addattr, align4,
        encAttr, u16le, hlen, List.take_of_length_le, RTA_DST]
    have hlen48 : (sstp_route_get_req pid seq dst).hdr.nlmsg_len = 48 := by
      simp [sstp_route_get_req, hf, AF_INET, AF_INET6, sstp_route_addattr, align4]
    refine ⟨?_, ?_, ?_⟩
    · simp [sstp_route_get_req, hf, AF_INET, AF_INET6, sstp_route_addattr]
    · simp [sstp_route_get_req, hf, AF_INET, AF_INET6, sstp_route_addattr]
    · rw [hattrs, hlen48]
      have h20 : (48 : Nat) - 28 = 4 + dst.sin6_addr.length := by omega
      rw [h20]
      exact parseAttrs_single RTA_DST dst.sin6_addr (by norm_num [RTA_DST]) (by omega)
        (by omega)

theorem claim_C6_witness :
    (dstV4.sa_family = AF_INET ∧ dstV4.sin_addr.length = 4 ∧
      ((sstp_route_get_req 42 0 dstV4).rtm.rtm_family = AF_INET ∧
       (sstp_route_get_req 42 0 dstV4).rtm.rtm_dst_len = 32 ∧
       parseAttrs (sstp_route_get_req 42 0 dstV4).attrs
          ((sstp_route_get_req 42 0 dstV4).hdr.nlmsg_len - 28)
        = [(RTA_DST, dstV4.sin_addr)])) ∧
    (dstV6.sa_family = AF_INET6 ∧ dstV6.sin6_addr.length = 16 ∧
      ((sstp_route_get_req 42 0 dstV6).rtm.rtm_family = AF_INET6 ∧
       (sstp_route_get_req 42 0 dstV6).rtm.rtm_dst_len = 128 ∧
       parseAttrs (sstp_route_get_req 42 0 dstV6).attrs
          ((sstp_route_get_req 42 0 dstV6).hdr.nlmsg_len - 28)
        = [(RTA_DST, dstV6.sin6_addr)])) :=
  ⟨⟨rfl, rfl, (claim_C6 42 0 dstV4).1 rfl rfl⟩,
   ⟨rfl, rfl, (claim_C6 42 0 dstV6).2 rfl rfl⟩⟩

/-- C1 (amended): a well-formed inbound message whose sequence number or pid
does not match is discarded and the loop continues with the remaining reads —
the exchange's outcome is never determined by that message — provided the
message is not a kernel error frame with a non-zero code (the error check at
lines 100-109 runs before the correlation checks at lines 111-119, so such a
frame terminates the exchange regardless of correlation; see the
counterexample). -/
theorem claim_C1 (pid seq : Nat) (buf : List Nat) (rest : List ReadEvent)
    (bytes : List Nat)
    (hne : bytes.length ≠ 0)
    (hok : nlmsgOk (readBuf buf bytes) bytes.length)
    (hnoterr : ¬(nlType (readBuf buf bytes) = NLMSG_ERROR ∧
      nlErrCode (readBuf buf bytes) ≠ 0))
    (hmis : nlSeq (readBuf buf bytes) ≠ seq % 4294967296 ∨
      nlPid (readBuf buf bytes) ≠ pid % 4294967296) :
    sstp_route_recv pid seq buf (.data bytes :: rest)
      = recvLoopAux pid seq rest (readBuf buf bytes) 0 := by
  have hbuf : List.take 0 buf ++ bytes ++ List.drop (0 + bytes.length) buf
      = readBuf buf bytes := by
    simp [readBuf]
  have hlen : 0 < nlLen (readBuf buf bytes) := by
    have h := hok.2.1
    omega
  unfold sstp_route_recv
  simp only [recvLoopAux]
  rw [if_neg hne]
  simp only [hbuf]
  rw [if_neg (not_not_intro hok), if_neg hnoterr]
  by_cases hseq : nlSeq (readBuf buf bytes) = seq % 4294967296
  · have hpid := hmis.resolve_left (not_not_intro hseq)
    rw [if_neg (not_not_intro hseq), if_pos hpid, if_pos hlen]
  · rw [if_pos hseq, if_pos hlen]

theorem claim_C1_witness :
    (msgWrongSeq.length ≠ 0 ∧
     nlmsgOk (readBuf zeroBuf msgWrongSeq) msgWrongSeq.length ∧
     ¬(nlType (readBuf zeroBuf msgWrongSeq) = NLMSG_ERROR ∧
       nlErrCode (readBuf zeroBuf msgWrongSeq) ≠ 0) ∧
     (nlSeq (readBuf zeroBuf msgWrongSeq) ≠ 1 % 4294967296 ∨
      nlPid (readBuf zeroBuf msgWrongSeq) ≠ 42 % 4294967296)) ∧
    sstp_route_recv 42 1 zeroBuf (.data msgWrongSeq :: [.fail])
      = recvLoopAux 42 1 [.fail] (readBuf zeroBuf msgWrongSeq) 0 :=
  ⟨⟨by decide, by decide, by decide, by decide⟩,
   claim_C1 42 1 zeroBuf [.fail] msgWrongSeq (by decide) (by decide) (by decide)
     (by decide)⟩

/-- C1 counterexample: a well-formed kernel error frame with embedded code
-17 whose sequence number (77) differs from the session's (1) is *not*
discarded: the exchange returns the kernel error on account of that message,
because the error-frame check precedes the sequence/pid correlation checks. -/
theorem claim_C1_counterexample :
    sstp_route_recv 42 1 zeroBuf [.data errFrameWrongSeq]
      = some (.error (.kernelError 17)) ∧
    nlSeq (readBuf zeroBuf errFrameWrongSeq) ≠ 1 % 4294967296 := by
  constructor
  · rfl
  · decide

/-- C2: a message of the kernel error-frame type with a non-zero embedded
code makes the exchange fail with that code (as `errno = -err->error`), never
a success; with a zero embedded code the frame is not an error — a matching
zero-code frame (a netlink ACK, which carries no multi-part flag) is accepted
as the successful result of the exchange. -/
theorem claim_C2 :
    (∀ (pid seq : Nat) (buf : List Nat) (rest : List ReadEvent) (bytes : List Nat),
      bytes.length ≠ 0 →
      nlmsgOk (readBuf buf bytes) bytes.length →
      nlType (readBuf buf bytes) = NLMSG_ERROR →
      nlErrCode (readBuf buf bytes) ≠ 0 →
      sstp_route_recv pid seq buf (.data bytes :: rest)
        = some (.error (.kernelError (- nlErrCode (readBuf buf bytes))))) ∧
    (∀ (pid seq : Nat) (buf : List Nat) (rest : List ReadEvent) (bytes : List Nat),
      bytes.length ≠ 0 →
      nlmsgOk (readBuf buf bytes) bytes.length →
      nlType (readBuf buf bytes) = NLMSG_ERROR →
      nlErrCode (readBuf buf bytes) = 0 →
      nlSeq (readBuf buf bytes) = seq % 4294967296 →
      nlPid (readBuf buf bytes) = pid % 4294967296 →
      nlFlags (readBuf buf bytes) &&& NLM_F_MULTI = 0 →
      sstp_route_recv pid seq buf (.data bytes :: rest)
        = some (.ok (bytes.length, readBuf buf bytes))) := by
  constructor
  · intro pid seq buf rest bytes hne hok htype hcode
    have hbuf : List.take 0 buf ++ bytes ++ List.drop (0 + bytes.length) buf
        = readBuf buf bytes := by
      simp [readBuf]
    unfold sstp_route_recv
    simp only [recvLoopAux]
    rw [if_neg hne]
    simp only [hbuf]
    rw [if_neg (not_not_intro hok), if_pos ⟨htype, hcode⟩]
  · intro pid seq buf rest bytes hne hok htype hcode hseq hpid hflags
    have hbuf : List.take 0 buf ++ bytes ++ List.drop (0 + bytes.length) buf
        = readBuf buf bytes := by
      simp [readBuf]
    have hnotdone : ¬ nlType (readBuf buf bytes) = NLMSG_DONE := by
      rw [htype]
      decide
    unfold sstp_route_recv
    simp only [recvLoopAux]
    rw [if_neg hne]
    simp only [hbuf]
    rw [if_neg (not_not_intro hok)]
    rw [if_neg (show ¬(nlType (readBuf buf bytes) = NLMSG_ERROR ∧
      nlErrCode (readBuf buf bytes) ≠ 0) from fun h => h.2 hcode)]
    rw [if_neg (not_not_intro hseq), if_neg (not_not_intro hpid)]
    rw [if_neg hnotdone, if_pos hflags]

theorem claim_C2_witness :
    ((errFrameWrongSeq.length ≠ 0 ∧
      nlmsgOk (readBuf zeroBuf errFrameWrongSeq) errFrameWrongSeq.length ∧
      nlType (readBuf zeroBuf errFrameWrongSeq) = NLMSG_ERROR ∧
      nlErrCode (readBuf zeroBuf errFrameWrongSeq) ≠ 0) ∧
     sstp_route_recv 42 1 zeroBuf [.data errFrameWrongSeq]
       = some (.error (.kernelError (- nlErrCode (readBuf zeroBuf errFrameWrongSeq))))) ∧
    ((ackFrame.length ≠ 0 ∧
      nlmsgOk (readBuf zeroBuf ackFrame) ackFrame.length ∧
      nlType (readBuf zeroBuf ackFrame) = NLMSG_ERROR ∧
      nlErrCode (readBuf zeroBuf ackFrame) = 0 ∧
      nlSeq (readBuf zeroBuf ackFrame) = 1 % 4294967296 ∧
      nlPid (readBuf zeroBuf ackFrame) = 42 % 4294967296 ∧
      nlFlags (readBuf zeroBuf ackFrame) &&& NLM_F_MULTI = 0) ∧
     sstp_route_recv 42 1 zeroBuf [.data ackFrame]
       = some (.ok (ackFrame.length, readBuf zeroBuf ackFrame))) :=
  ⟨⟨⟨by decide, by decide, by decide, by decide⟩,
    claim_C2.1 42 1 zeroBuf [] errFrameWrongSeq (by decide) (by decide) (by decide)
      (by decide)⟩,
   ⟨⟨by decide, by decide, by decide, by decide, by decide, by decide, by decide⟩,
    claim_C2.2 42 1 zeroBuf [] ackFrame (by decide) (by decide) (by decide) (by decide)
      (by decide) (by decide) (by decide)⟩⟩

/-- C3 (amended): the exchange returns at the first read that contains a
matching, well-formed, non-error message, with that read's byte count — for
every such message, terminal (`NLMSG_DONE` or no `NLM_F_MULTI` flag) or not.
A multi-part response is therefore returned whole only when all its parts
arrive in that single read; parts arriving in later reads are never awaited,
because `NLMSG_OK` forces the declared length ≤ the read length, so the
accumulation condition `nlmsg_len > ctx->len` is false after every match. -/
theorem claim_C3 (pid seq : Nat) (buf : List Nat) (rest : List ReadEvent)
    (bytes : List Nat)
    (hne : bytes.length ≠ 0)
    (hok : nlmsgOk (readBuf buf bytes) bytes.length)
    (hnoterr : ¬(nlType (readBuf buf bytes) = NLMSG_ERROR ∧
      nlErrCode (readBuf buf bytes) ≠ 0))
    (hseq : nlSeq (readBuf buf bytes) = seq % 4294967296)
    (hpid : nlPid (readBuf buf bytes) = pid % 4294967296) :
    sstp_route_recv pid seq buf (.data bytes :: rest)
      = some (.ok (bytes.length, readBuf buf bytes)) := by
  have hbuf : List.take 0 buf ++ bytes ++ List.drop (0 + bytes.length) buf
      = readBuf buf bytes := by
    simp [readBuf]
  unfold sstp_route_recv
  simp only [recvLoopAux]
  rw [if_neg hne]
  simp only [hbuf]
  rw [if_neg (not_not_intro hok), if_neg hnoterr]
  rw [if_neg (not_not_intro hseq), if_neg (not_not_intro hpid)]
  by_cases hdone : nlType (readBuf buf bytes) = NLMSG_DONE
  · rw [if_pos hdone]
  · rw [if_neg hdone]
    by_cases hflags : nlFlags (readBuf buf bytes) &&& NLM_F_MULTI = 0
    · rw [if_pos hflags]
    · rw [if_neg hflags]
      rw [if_neg (show ¬ bytes.length < nlLen (readBuf buf bytes) from by
        have h := hok.2.2
        omega)]

theorem claim_C3_witness :
    (msgMatch.length ≠ 0 ∧
     nlmsgOk (readBuf zeroBuf msgMatch) msgMatch.length ∧
     ¬(nlType (readBuf zeroBuf msgMatch) = NLMSG_ERROR ∧
       nlErrCode (readBuf zeroBuf msgMatch) ≠ 0) ∧
     nlSeq (readBuf zeroBuf msgMatch) = 1 % 4294967296 ∧
     nlPid (readBuf zeroBuf msgMatch) = 42 % 4294967296) ∧
    sstp_route_recv 42 1 zeroBuf (.data msgMatch :: [.fail])
      = some (.ok (msgMatch.length, readBuf zeroBuf msgMatch)) :=
  ⟨⟨by decide, by decide, by decide, by decide, by decide⟩,
   claim_C3 42 1 zeroBuf [.fail] msgMatch (by decide) (by decide) (by decide)
     (by decide) (by decide)⟩

/-- C3 counterexample: a multi-part response whose first part (20 bytes,
`NLM_F_MULTI`, matching seq/pid) and terminal `NLMSG_DONE` message arrive in
two separate reads is *not* accumulated: the exchange returns right after the
first read with 20, the first part's length, and never consumes the done
message — the claim required it to keep reading until the terminal message
and return the total accumulated length (36). -/
theorem claim_C3_counterexample :
    sstp_route_recv 42 1 zeroBuf [.data multiPart1, .data multiDone]
      = some (.ok (20, readBuf zeroBuf multiPart1)) ∧
    nlFlags (readBuf zeroBuf multiPart1) &&& NLM_F_MULTI ≠ 0 ∧
    nlType (readBuf zeroBuf multiPart1) ≠ NLMSG_DONE ∧
    multiPart1.length + multiDone.length = 36 := by
  refine ⟨rfl, by decide, by decide, by decide⟩

/-! ### Helper lemmas for the response decoder -/

theorem decodeU32_u32le (n : Nat) (rest : List Nat) (h : n < 4294967296) :
    decodeU32 (u32le n ++ rest) = n := by
  simp [decodeU32, u32le, byteAt]
  omega

/-- The attribute switch never touches the family or the address width. -/
theorem applyAttr_keeps (resolver : Nat → Option String) (r : Route) (t : Nat)
    (p : List Nat) :
    (applyAttr resolver r t p).family = r.family ∧
    (applyAttr resolver r t p).rt_blen = r.rt_blen := by
  unfold applyAttr
  split_ifs <;> simp

/-- Neither does the whole decoding fold. -/
theorem foldAttr_keeps (resolver : Nat → Option String)
    (l : List (Nat × List Nat)) :
    ∀ r : Route,
      ((l.foldl (fun r a => applyAttr resolver r a.1 a.2) r).family = r.family ∧
       (l.foldl (fun r a => applyAttr resolver r a.1 a.2) r).rt_blen = r.rt_blen) := by
  induction l with
  | nil => intro r; exact ⟨rfl, rfl⟩
  | cons a l ih =>
    intro r
    obtain ⟨hf, hb⟩ := ih (applyAttr resolver r a.1 a.2)
    obtain ⟨hf2, hb2⟩ := applyAttr_keeps resolver r a.1 a.2
    exact ⟨by rw [List.foldl_cons, hf, hf2], by rw [List.foldl_cons, hb, hb2]⟩

theorem nlLen_mkResponse (fam seqv pidv : Nat) (l : List (Nat × List Nat))
    (h : 28 + sumLens l < 4294967296) :
    nlLen (mkResponse fam seqv pidv l) = 28 + sumLens l := by
  simp only [mkResponse, hdrToBytes, nlLen, List.append_assoc]
  exact decodeU32_u32le _ _ h

theorem byteAt16_mkResponse (fam seqv pidv : Nat) (l : List (Nat × List Nat)) :
    byteAt (mkResponse fam seqv pidv l) 16 = fam % 256 := by
  simp [mkResponse, hdrToBytes, rtmToBytes, u32le, u16le, byteAt]

theorem drop28_mkResponse (fam seqv pidv : Nat) (l : List (Nat × List Nat)) :
    (mkResponse fam seqv pidv l).drop 28 = encAttrs l := by
  simp [mkResponse, hdrToBytes, rtmToBytes, u32le, u16le]

/-- C7: decoding a response fails with `UnsupportedFamily` unless the
reported family is IPv4 or IPv6; any successful decode carries the reported
family with `rt_blen` 16 for IPv6 and 4 otherwise; and a synthetic IPv4
response carrying destination, gateway, source and output-interface
attributes (plus an unrecognised type 99, which is skipped) populates all
four fields and presence flags, leaving the interface name empty when index
resolution fails. -/
theorem claim_C7 :
    (∀ (resolver : Nat → Option String) (buf : List Nat) (len : Nat),
      nlmsgOk buf len → byteAt buf 16 ≠ AF_INET → byteAt buf 16 ≠ AF_INET6 →
      sstp_route_get_decode resolver buf len = .error .unsupportedFamily) ∧
    (∀ (resolver : Nat → Option String) (buf : List Nat) (len : Nat) (r : Route),
      sstp_route_get_decode resolver buf len = .ok r →
      r.family = byteAt buf 16 ∧
      r.rt_blen = (if byteAt buf 16 = AF_INET6 then 16 else 4)) ∧
    (∀ (d g s o x : List Nat) (seqv pidv : Nat),
      d.length = 4 → g.length = 4 → s.length = 4 → o.length = 4 → x.length = 4 →
      sstp_route_get_decode (fun _ => none)
          (mkResponse AF_INET seqv pidv
            [(RTA_DST, d), (RTA_GATEWAY, g), (RTA_PREFSRC, s), (RTA_OIF, o), (99, x)])
          68
        = .ok { family := AF_INET, rt_blen := 4, dst := d, src := s, gwy := g,
                oif := decodeU32 o, ifname := "", ipcmd := "",
                have_ := ⟨true, true, true, true⟩ }) := by
  refine ⟨?_, ?_, ?_⟩
  · intro resolver buf len hok h2 h10
    simp only [sstp_route_get_decode]
    rw [if_neg (not_not_intro hok), if_pos ⟨h2, h10⟩]
  · intro resolver buf len r h
    simp only [sstp_route_get_decode] at h
    by_cases hok : nlmsgOk buf len
    · rw [if_neg (not_not_intro hok)] at h
      by_cases hfam : byteAt buf 16 ≠ AF_INET ∧ byteAt buf 16 ≠ AF_INET6
      · rw [if_pos hfam] at h
        exact absurd h (by simp)
      · rw [if_neg hfam] at h
        have hr := Except.ok.inj h
        obtain ⟨hf, hb⟩ := foldAttr_keeps resolver
          (parseAttrs (buf.drop 28) (nlLen buf - 28))
          { zeroRoute with
            family := byteAt buf 16
            rt_blen := if byteAt buf 16 = AF_INET6 then 16 else 4 }
        rw [hr] at hf hb
        constructor
        · simpa using hf
        · simpa using hb
    · rw [if_pos hok] at h
      exact absurd h (by simp)
  · intro d g s o x seqv pidv hd hg hs ho hx
    have hsum : sumLens [(RTA_DST, d), (RTA_GATEWAY, g), (RTA_PREFSRC, s),
        (RTA_OIF, o), (99, x)] = 40 := by
      simp [sumLens, hd, hg, hs, ho, hx]
    have hlen : nlLen (mkResponse AF_INET seqv pidv
        [(RTA_DST, d), (RTA_GATEWAY, g), (RTA_PREFSRC, s), (RTA_OIF, o), (99, x)])
        = 68 := by
      rw [nlLen_mkResponse _ _ _ _ (by rw [hsum]; norm_num), hsum]
    have hfam16 : byteAt (mkResponse AF_INET seqv pidv
        [(RTA_DST, d), (RTA_GATEWAY, g), (RTA_PREFSRC, s), (RTA_OIF, o), (99, x)]) 16
        = 2 := by
      rw [byteAt16_mkResponse]
      rfl
    have hok : nlmsgOk (mkResponse AF_INET seqv pidv
        [(RTA_DST, d), (RTA_GATEWAY, g), (RTA_PREFSRC, s), (RTA_OIF, o), (99, x)]) 68 := by
      refine ⟨by norm_num, ?_, ?_⟩ <;> rw [hlen] <;> norm_num
    have hw : ∀ a ∈ [(RTA_DST, d), (RTA_GATEWAY, g), (RTA_PREFSRC, s),
        (RTA_OIF, o), (99, x)], a.1 < 65536 ∧ a.2.length % 4 = 0 ∧
        4 + a.2.length < 65536 := by
      intro a ha
      simp only [List.mem_cons, List.not_mem_nil, or_false] at ha
      rcases ha with rfl | rfl | rfl | rfl | rfl <;>
        simp [RTA_DST, RTA_GATEWAY, RTA_PREFSRC, RTA_OIF, hd, hg, hs, ho, hx]
    simp only [sstp_route_get_decode]
    rw [if_neg (not_not_intro hok)]
    rw [if_neg (show ¬(byteAt (mkResponse AF_INET seqv pidv
        [(RTA_DST, d), (RTA_GATEWAY, g), (RTA_PREFSRC, s), (RTA_OIF, o), (99, x)]) 16
          ≠ AF_INET ∧ _ ≠ AF_INET6) from fun hc => hc.1 (by rw [hfam16]; rfl))]
    rw [drop28_mkResponse, hlen]
    have h40 : (68 : Nat) - 28 = sumLens [(RTA_DST, d), (RTA_GATEWAY, g),
        (RTA_PREFSRC, s), (RTA_OIF, o), (99, x)] := by
      rw [hsum]
    rw [h40, parseAttrs_encAttrs _ hw]
    have hfam16x : byteAt (mkResponse 2 seqv pidv
        [(1, d), (5, g), (7, s), (4, o), (99, x)]) 16 = 2 := hfam16
    simp [applyAttr, hfam16x, zeroRoute, AF_INET, AF_INET6,
      RTA_DST, RTA_GATEWAY, RTA_PREFSRC, RTA_OIF]

theorem claim_C7_witness :
    (nlmsgOk (mkResponse 5 1 42 []) 28 ∧
     byteAt (mkResponse 5 1 42 []) 16 ≠ AF_INET ∧
     byteAt (mkResponse 5 1 42 []) 16 ≠ AF_INET6 ∧
     sstp_route_get_decode (fun _ => none) (mkResponse 5 1 42 []) 28
       = .error .unsupportedFamily) ∧
    (([8, 8, 8, 8] : List Nat).length = 4 ∧
     sstp_route_get_decode (fun _ => none)
        (mkResponse AF_INET 1 42
          [(RTA_DST, [8, 8, 8, 8]), (RTA_GATEWAY, [9, 9, 9, 9]),
           (RTA_PREFSRC, [7, 7, 7, 7]), (RTA_OIF, [3, 0, 0, 0]), (99, [1, 2, 3, 4])]) 68
      = .ok { family := AF_INET, rt_blen := 4, dst := [8, 8, 8, 8],
              src := [7, 7, 7, 7], gwy := [9, 9, 9, 9], oif := decodeU32 [3, 0, 0, 0],
              ifname := "", ipcmd := "", have_ := ⟨true, true, true, true⟩ }) :=
  ⟨⟨by decide, by decide, by decide,
    claim_C7.1 (fun _ => none) (mkResponse 5 1 42 []) 28 (by decide) (by decide)
      (by decide)⟩,
   ⟨rfl,
    claim_C7.2.2 [8, 8, 8, 8] [9, 9, 9, 9] [7, 7, 7, 7] [3, 0, 0, 0] [1, 2, 3, 4] 1 42
      rfl rfl rfl rfl rfl⟩⟩

/-- C10: every error return of the protocol-backend `sstp_route_get` — send
failure, receive failure, malformed response framing, or unsupported family —
leaves the caller's route structure exactly as it was: the function only
writes it (first zeroing it) after the response passed `NLMSG_OK` and the
family check. -/
theorem claim_C10 (pid : Nat) (resolver : Nat → Option String) (seq : Nat)
    (dst : SockAddr) (routeIn : Route) (sendOk : Bool) (events : List ReadEvent)
    (e : GetErr) (r : Route)
    (h : sstp_route_get_proto pid resolver seq dst routeIn sendOk events
      = some (.error e, r)) :
    r = routeIn := by
  simp only [sstp_route_get_proto] at h
  cases htalk : sstp_route_talk sendOk pid (seq + 1)
      (sessionBuf (sstp_route_get_req pid seq dst)) events with
  | none =>
    rw [htalk] at h
    exact absurd h (by simp)
  | some v =>
    rw [htalk] at h
    cases v with
    | error e2 =>
      simp only [Option.some.injEq, Prod.mk.injEq, Except.error.injEq] at h
      exact h.2.symm
    | ok p =>
      obtain ⟨len, fbuf⟩ := p
      have h2 : (match sstp_route_get_decode resolver fbuf len with
          | Except.error e => some (Except.error e, routeIn)
          | Except.ok r => some (Except.ok (), r)) = some (Except.error e, r) := h
      cases hdec : sstp_route_get_decode resolver fbuf len with
      | error e2 =>
        rw [hdec] at h2
        simp only [Option.some.injEq, Prod.mk.injEq, Except.error.injEq] at h2
        exact h2.2.symm
      | ok r2 =>
        rw [hdec] at h2
        exact absurd h2 (by simp)

theorem claim_C10_witness :
    sstp_route_get_proto 42 (fun _ => none) 0 dstV4 keepRoute false []
      = some (.error .ioError, keepRoute) ∧ keepRoute = keepRoute :=
  ⟨rfl, claim_C10 42 (fun _ => none) 0 dstV4 keepRoute false [] .ioError keepRoute rfl⟩

/-- C8 (amended): `done` on a null handle is a no-op; after a successful
`init` (positive descriptor) a single `done` closes the socket exactly once,
frees the context, and leaks nothing; the socket is not closed a second time
by a second `done`.  But `done` is not safely callable twice on the same
non-null handle: the C function frees the context unconditionally, so the
second call is a double free (see the counterexample). -/
theorem claim_C8 (fd : Int) (hfd : 0 < fd) :
    (sstp_route_init true fd initialWorld).1 = true ∧
    (sstp_route_done (sstp_route_init true fd initialWorld).1
      (sstp_route_init true fd initialWorld).2).fdOpen = false ∧
    (sstp_route_done (sstp_route_init true fd initialWorld).1
      (sstp_route_init true fd initialWorld).2).closeCalls = 1 ∧
    (sstp_route_done (sstp_route_init true fd initialWorld).1
      (sstp_route_init true fd initialWorld).2).doubleFree = false ∧
    (sstp_route_done (sstp_route_init true fd initialWorld).1
      (sstp_route_init true fd initialWorld).2).ctxAllocated = false ∧
    (sstp_route_done true (sstp_route_done (sstp_route_init true fd initialWorld).1
      (sstp_route_init true fd initialWorld).2)).closeCalls = 1 ∧
    (∀ w : RtWorld, sstp_route_done false w = w) := by
  have hle : (0 : Int) ≤ fd := le_of_lt hfd
  have hnotlt : ¬ fd < 0 := by omega
  simp [sstp_route_init, sstp_route_done, initialWorld, hle, hnotlt, hfd]

theorem claim_C8_witness :
    ((0 : Int) < 3) ∧
    ((sstp_route_init true 3 initialWorld).1 = true ∧
     (sstp_route_done (sstp_route_init true 3 initialWorld).1
       (sstp_route_init true 3 initialWorld).2).fdOpen = false ∧
     (sstp_route_done (sstp_route_init true 3 initialWorld).1
       (sstp_route_init true 3 initialWorld).2).closeCalls = 1 ∧
     (sstp_route_done (sstp_route_init true 3 initialWorld).1
       (sstp_route_init true 3 initialWorld).2).doubleFree = false ∧
     (sstp_route_done (sstp_route_init true 3 initialWorld).1
       (sstp_route_init true 3 initialWorld).2).ctxAllocated = false ∧
     (sstp_route_done true (sstp_route_done (sstp_route_init true 3 initialWorld).1
       (sstp_route_init true 3 initialWorld).2)).closeCalls = 1 ∧
     (∀ w : RtWorld, sstp_route_done false w = w)) :=
  ⟨by decide, claim_C8 3 (by decide)⟩

/-- C8 counterexample: calling `done` twice on the same non-null handle is
not safe: the second call reaches `free(ctx)` again (the context is no longer
allocated), a double free — though the socket is correctly not closed twice. -/
theorem claim_C8_counterexample :
    (sstp_route_done true (sstp_route_done true
      (sstp_route_init true 3 initialWorld).2)).doubleFree = true := by
  rfl

/-- C9: in the shell fallback backend, `get` returns 0 exactly when the child
process spawns and produces a first output line (which is stored verbatim),
and -1 when the address cannot be formatted, the spawn fails, or the output
is empty; but `replace` and `delete` do *not* return Ok when `popen`
succeeds — both functions end without a `return` statement on that path, so
the returned value is unspecified (`none` in the model); only their
spawn-failure paths return a defined -1. -/
theorem claim_C9 :
    sstp_route_replace_sh true = none ∧
    sstp_route_delete_sh true = none ∧
    sstp_route_replace_sh false = some (-1) ∧
    sstp_route_delete_sh false = some (-1) ∧
    (∀ (r : Route) (s : String),
      sstp_route_get_sh true true (some s) r = (0, { r with ipcmd := s })) ∧
    (∀ (r : Route) (line : Option String),
      sstp_route_get_sh true false line r = (-1, r)) ∧
    (∀ (r : Route) (line : Option String),
      sstp_route_get_sh false true line r = (-1, r)) ∧
    (∀ r : Route, sstp_route_get_sh true true none r = (-1, r)) :=
  ⟨rfl, rfl, rfl, rfl, fun _ _ => rfl, fun _ _ => rfl, fun _ _ => rfl,
   fun _ => rfl⟩

end SstpRoute
